import Mathlib

/-!
Verification of the postdraft scraping/dedup subsystem.

This file shallowly embeds the TypeScript source of the repository's
scraping pipeline (src/lib/scraping/*, the feed parser, the topic
extraction parser) into Lean and proves or refutes the specification's
claims about it.

Modelling conventions:
* JS strings are Lean `String`s viewed as their list of characters
  (inputs in all claims are ASCII, where UTF-16 code units and
  characters coincide, so `String.length` models JS `.length`).
* JS `number` is modelled by `ℚ` where the code only compares and does
  exact-result arithmetic, and by `ℝ` for the logarithmic trending
  score.  `Date` values and logging side effects are not modelled: no
  claim depends on them.
* Asynchronous external calls (the network, Redis, Supabase, cheerio's
  DOM, JSON.parse) are modelled as explicit inputs; a call that can
  throw is an `Except` input.
-/

namespace Postdraft

/-- JS whitespace class (the regex class used by the source, restricted to
the ASCII range that all claim inputs live in). -/
def jsIsWs (c : Char) : Bool :=
  c = ' ' || c = '\t' || c = '\n' || c = '\r' || c = '\x0b' || c = '\x0c'

/-- JS `String.prototype.trim`. -/
def jsTrim (s : String) : String :=
  ⟨((s.data.dropWhile jsIsWs).reverse.dropWhile jsIsWs).reverse⟩

/-- JS `String.prototype.toLowerCase` (ASCII range). -/
def jsToLower (s : String) : String :=
  ⟨s.data.map Char.toLower⟩

/-- JS `String.prototype.substring(0, n)` over code units. -/
def jsTake (s : String) (n : Nat) : String :=
  ⟨s.data.take n⟩

/-- The splitting behaviour of JS `s.split(regex of one-or-more whitespace)`:
maximal whitespace runs are separators; a separator touching the start or
the end of the string contributes an empty field; the empty string yields
one empty field. -/
def jsSplitRuns : List Char → List (List Char)
  | [] => [[]]
  | c :: cs =>
    let r := jsSplitRuns cs
    if jsIsWs c then
      match cs with
      | [] => [] :: r
      | c2 :: _ => if jsIsWs c2 then r else [] :: r
    else
      match r with
      | [] => [[c]]
      | t :: ts => (c :: t) :: ts

/-- JS split on one-or-more whitespace, as strings. -/
def jsSplitWs (s : String) : List String :=
  (jsSplitRuns s.data).map (fun l => ⟨l⟩)

/-- Result record of `validateContent` (contentCleaner.ts). -/
structure ValidationResult where
  isValid : Bool
  reason : Option String
deriving DecidableEq, Repr

/-- `validateContent` from src/lib/scraping/contentCleaner.ts.

The source computes
`alphabeticChars = content.replace(nonLetterNonWhitespaceClass, "").length`,
i.e. it KEEPS whitespace characters in the count (the character class
removes everything that is neither a letter nor whitespace), and
`totalChars = content.replace(whitespaceClass, "").length`.  The float
comparison `ratio < 0.3` is modelled exactly as the rational comparison
`alphabeticChars * 10 < totalChars * 3`. -/
def validateContent (content : String) : ValidationResult :=
  if content.length < 100 then
    { isValid := false
      reason := some ("Content too short: " ++ toString content.length ++
        " characters (minimum 100)") }
  else if content.length > 50000 then
    { isValid := false
      reason := some ("Content too long: " ++ toString content.length ++
        " characters (maximum 50,000)") }
  else
    let words := (jsSplitWs content).filter (fun w => w.length > 0)
    if words.length < 10 then
      { isValid := false
        reason := some ("Too few words: " ++ toString words.length ++
          " words (minimum 10)") }
    else
      let alphabeticChars := (content.data.filter (fun c => c.isAlpha || jsIsWs c)).length
      let totalChars := (content.data.filter (fun c => !jsIsWs c)).length
      if totalChars > 0 && alphabeticChars * 10 < totalChars * 3 then
        { isValid := false
          reason := some "Content contains too many special characters or numbers" }
      else
        { isValid := true, reason := none }

/-- Sixty single digits separated by single spaces: 119 characters, 60
whitespace-delimited words, zero letters. -/
def digitsOnlyContent : String :=
  "0 1 2 3 4 5 6 7 8 9 0 1 2 3 4 5 6 7 8 9 0 1 2 3 4 5 6 7 8 9 0 1 2 3 4 5 6 7 8 9 0 1 2 3 4 5 6 7 8 9 0 1 2 3 4 5 6 7 8 9"

/-! ## Duplicate detector (src/lib/scraping/duplicate-detector.ts) -/

/-- The word set a title is reduced to by `calculateSimilarity`:
`new Set(str.toLowerCase().trim().split(whitespaceRuns))`.  A JS `Set` is
used only through `.size` and `.has`, so it is modelled as a `Finset`. -/
def wordSet (s : String) : Finset String :=
  (jsSplitWs (jsTrim (jsToLower s))).toFinset

/-- `calculateSimilarity` from duplicate-detector.ts: Jaccard similarity
of the two word sets, with an (unreachable) empty-union guard returning 0. -/
def calculateSimilarity (str1 str2 : String) : ℚ :=
  let words1 := wordSet str1
  let words2 := wordSet str2
  let intersection := words1 ∩ words2
  let union := words1 ∪ words2
  if union.card = 0 then 0 else (intersection.card : ℚ) / (union.card : ℚ)

/-- `ExtractedTopic` from src/lib/scraping/types.ts.  `trendingScore` is a
JS number, modelled as `ℚ`. -/
structure ExtractedTopic where
  title : String
  description : String
  category : String
  trendingScore : ℚ
  relevance : String
deriving DecidableEq, Repr

/-- `isDuplicateTopic` from duplicate-detector.ts, from the point where the
Supabase query has been awaited: `queryResult` is the `{ data, error }` of
the 30-day title query (`.error e` models a non-null `error`; a null `data`
is modelled as the empty row list, which the source treats identically).
Each row's nullable `title` column is an `Option String`; the source skips
falsy titles (`null` or the empty string).  The JS default argument
`similarityThreshold = 0.8` is passed explicitly by callers here. -/
def isDuplicateTopic (topic : ExtractedTopic)
    (queryResult : Except String (List (Option String)))
    (similarityThreshold : ℚ) : Bool :=
  match queryResult with
  | .error _ => false
  | .ok existingTopics =>
    if existingTopics.length = 0 then false
    else
      let normalizedNewTitle := jsTrim (jsToLower topic.title)
      existingTopics.any (fun existing =>
        match existing with
        | none => false
        | some existingTitle =>
          if existingTitle = "" then false
          else
            let normalizedExistingTitle := jsTrim (jsToLower existingTitle)
            if normalizedNewTitle = normalizedExistingTitle then true
            else decide (similarityThreshold ≤ calculateSimilarity topic.title existingTitle))

/-- `filterDuplicateTopics` from duplicate-detector.ts: keeps, in order,
the topics for which `isDuplicateTopic` (at the default 0.8 threshold) is
false.  `store` gives the awaited query result of each iteration's
`isDuplicateTopic` call. -/
def filterDuplicateTopics (topics : List ExtractedTopic)
    (store : ExtractedTopic → Except String (List (Option String))) :
    List ExtractedTopic :=
  topics.filter (fun topic => !(isDuplicateTopic topic (store topic) (8/10)))

/-- `generateContentHash` builds the string `title|excerpt.substring(0,500)|url`
and digests it with SHA-256.  The digest is the only non-arithmetic step and
is kept abstract as a `digest` parameter. -/
def hashContentString (title excerpt : String) (url : Option String) : String :=
  title ++ "|" ++ jsTake excerpt 500 ++ "|" ++ url.getD ""

/-- `generateContentHash` from duplicate-detector.ts, parameterized by the
SHA-256 hex digest function. -/
def generateContentHash (digest : String → String)
    (title excerpt : String) (url : Option String) : String :=
  digest (hashContentString title excerpt url)

/-! ## Properties of the word-set splitter and of calculateSimilarity -/

/-- JS split of one-or-more whitespace always yields at least one field. -/
lemma jsSplitRuns_ne_nil (l : List Char) : jsSplitRuns l ≠ [] := by
  induction l with
  | nil => simp [jsSplitRuns]
  | cons c cs ih =>
    unfold jsSplitRuns
    dsimp only
    split
    · cases cs with
      | nil => simp
      | cons c2 cs2 =>
        dsimp only
        split
        · exact ih
        · simp
    · split
      · simp
      · simp

/-- The word set of any string (even the empty one) is nonempty: JS `split`
never returns an empty array, and the empty string contributes the field
`""` to the set. -/
lemma wordSet_nonempty (s : String) : (wordSet s).Nonempty := by
  unfold wordSet jsSplitWs
  cases h : jsSplitRuns (jsTrim (jsToLower s)).data with
  | nil => exact absurd h (jsSplitRuns_ne_nil _)
  | cons w ws => exact ⟨⟨w⟩, by simp [h]⟩

/-- The candidate topic of the spec's duplicate-detection example. -/
def candidateBooming : ExtractedTopic :=
  ⟨"AI coding assistants booming right now", "", "", 50, ""⟩

/-- The second candidate topic of the spec's duplicate-detection example. -/
def candidateEarnings : ExtractedTopic :=
  ⟨"Quarterly earnings beat expectations", "", "", 50, ""⟩

/-- Topic Store query result holding the spec example's stored title. -/
def storedBoomingQuery : Except String (List (Option String)) :=
  .ok [some "AI coding assistants are booming"]

/-- The example titles share 4 of their 7 distinct words. -/
lemma simBooming :
    calculateSimilarity "AI coding assistants booming right now"
      "AI coding assistants are booming" = 4/7 := by
  unfold calculateSimilarity
  dsimp only
  have h1 : (wordSet "AI coding assistants booming right now" ∩
      wordSet "AI coding assistants are booming").card = 4 := by decide
  have h2 : (wordSet "AI coding assistants booming right now" ∪
      wordSet "AI coding assistants are booming").card = 7 := by decide
  rw [h1, h2]
  norm_num

/-- The earnings title shares none of its words with the stored title. -/
lemma simEarnings :
    calculateSimilarity "Quarterly earnings beat expectations"
      "AI coding assistants are booming" = 0 := by
  unfold calculateSimilarity
  dsimp only
  have h1 : (wordSet "Quarterly earnings beat expectations" ∩
      wordSet "AI coding assistants are booming").card = 0 := by decide
  have h2 : (wordSet "Quarterly earnings beat expectations" ∪
      wordSet "AI coding assistants are booming").card = 9 := by decide
  rw [h1, h2]
  norm_num

/-- Claim C3, counterexample: with the stored topic
"AI coding assistants are booming", the candidate
"AI coding assistants booming right now" is NOT reported a duplicate — the
titles' Jaccard similarity is 4/7, below the 0.8 threshold — contradicting
the claim that isDuplicateTopic returns true on this pair. -/
theorem isDuplicateTopic_example_counterexample :
    isDuplicateTopic candidateBooming storedBoomingQuery (8/10) = false := by
  have hne : ¬((8:ℚ)/10 ≤ calculateSimilarity "AI coding assistants booming right now"
      "AI coding assistants are booming") := by
    rw [simBooming]; norm_num
  unfold isDuplicateTopic candidateBooming storedBoomingQuery
  dsimp only
  simp only [List.any_cons, List.any_nil]
  rw [show jsTrim (jsToLower "AI coding assistants booming right now") =
        "ai coding assistants booming right now" from rfl,
      show jsTrim (jsToLower "AI coding assistants are booming") =
        "ai coding assistants are booming" from rfl]
  simp [hne]

/-- Claim C3, amended: against the stored topic
"AI coding assistants are booming", isDuplicateTopic returns false BOTH for
the candidate "AI coding assistants booming right now" (its Jaccard
similarity is 4/7, roughly 0.57, below the 0.8 threshold) and for
"Quarterly earnings beat expectations" (similarity 0). -/
theorem isDuplicateTopic_example_results :
    isDuplicateTopic candidateBooming storedBoomingQuery (8/10) = false ∧
    isDuplicateTopic candidateEarnings storedBoomingQuery (8/10) = false ∧
    calculateSimilarity "AI coding assistants booming right now"
      "AI coding assistants are booming" = 4/7 := by
  refine ⟨?_, ?_, simBooming⟩
  · have hne : ¬((8:ℚ)/10 ≤ calculateSimilarity "AI coding assistants booming right now"
        "AI coding assistants are booming") := by
      rw [simBooming]; norm_num
    unfold isDuplicateTopic candidateBooming storedBoomingQuery
    dsimp only
    simp only [List.any_cons, List.any_nil]
    rw [show jsTrim (jsToLower "AI coding assistants booming right now") =
          "ai coding assistants booming right now" from rfl,
        show jsTrim (jsToLower "AI coding assistants are booming") =
          "ai coding assistants are booming" from rfl]
    simp [hne]
  · have hne : ¬((8:ℚ)/10 ≤ calculateSimilarity "Quarterly earnings beat expectations"
        "AI coding assistants are booming") := by
      rw [simEarnings]; norm_num
    unfold isDuplicateTopic candidateEarnings storedBoomingQuery
    dsimp only
    simp only [List.any_cons, List.any_nil]
    rw [show jsTrim (jsToLower "Quarterly earnings beat expectations") =
          "quarterly earnings beat expectations" from rfl,
        show jsTrim (jsToLower "AI coding assistants are booming") =
          "ai coding assistants are booming" from rfl]
    simp [hne]

/-- Claim C6, counterexample: on two empty strings calculateSimilarity
returns 1, not 0 — JS `"".split` yields `[""]`, so both word sets are the
singleton set of the empty word and the Jaccard ratio is 1/1; the
empty-union guard is unreachable. -/
theorem calculateSimilarity_empty_counterexample :
    calculateSimilarity "" "" = 1 ∧ calculateSimilarity "" "" ≠ 0 := by
  have h : calculateSimilarity "" "" = 1 := by
    unfold calculateSimilarity
    dsimp only
    have h1 : (wordSet "" ∩ wordSet "").card = 1 := by decide
    have h2 : (wordSet "" ∪ wordSet "").card = 1 := by decide
    rw [h1, h2]
    norm_num
  exact ⟨h, by rw [h]; norm_num⟩

/-- Claim C6, amended: calculateSimilarity is symmetric and returns 1
whenever both arguments are the same string — including the empty string,
for which it returns 1 rather than the claimed 0. -/
theorem calculateSimilarity_symm_refl :
    (∀ a b, calculateSimilarity a b = calculateSimilarity b a) ∧
    (∀ a, calculateSimilarity a a = 1) ∧
    calculateSimilarity "" "" = 1 := by
  have hrefl : ∀ a, calculateSimilarity a a = 1 := by
    intro a
    unfold calculateSimilarity
    dsimp only
    rw [Finset.inter_self, Finset.union_self]
    have hc : (wordSet a).card ≠ 0 := Finset.card_ne_zero_of_mem (wordSet_nonempty a).choose_spec
    rw [if_neg hc]
    exact div_self (by exact_mod_cast hc)
  refine ⟨?_, hrefl, hrefl ""⟩
  intro a b
  unfold calculateSimilarity
  dsimp only
  rw [Finset.inter_comm, Finset.union_comm]

/-- Claim C6, witness: the amended theorem applied at concrete titles. -/
theorem calculateSimilarity_symm_refl_witness :
    calculateSimilarity "alpha beta" "beta gamma" =
      calculateSimilarity "beta gamma" "alpha beta" ∧
    calculateSimilarity "alpha beta" "alpha beta" = 1 :=
  ⟨calculateSimilarity_symm_refl.1 "alpha beta" "beta gamma",
   calculateSimilarity_symm_refl.2.1 "alpha beta"⟩

/-- Two topics used to exercise the duplicate filter. -/
def sampleTopics : List ExtractedTopic :=
  [⟨"Edge AI chips", "", "Technology", 62, ""⟩,
   ⟨"Creator economy shifts", "", "Business", 55, ""⟩]

/-- A Topic Store that fails every query. -/
def failingStore : ExtractedTopic → Except String (List (Option String)) :=
  fun _ => .error "connection refused"

/-- Claim C10: when the Topic Store query errors, isDuplicateTopic returns
false, and filterDuplicateTopics therefore keeps every candidate of its
input, in order. -/
theorem duplicateFilter_fail_open :
    (∀ t e q, isDuplicateTopic t (.error e) q = false) ∧
    (∀ topics store, (∀ t, ∃ e, store t = .error e) →
      filterDuplicateTopics topics store = topics) := by
  constructor
  · intro t e q
    rfl
  · intro topics store h
    unfold filterDuplicateTopics
    rw [List.filter_eq_self]
    intro a _
    obtain ⟨e, he⟩ := h a
    rw [he]
    rfl

/-- Claim C10, witness: a failing store keeps both sample topics. -/
theorem duplicateFilter_fail_open_witness :
    isDuplicateTopic ⟨"T", "", "", 50, ""⟩ (.error "boom") (8/10) = false ∧
    filterDuplicateTopics sampleTopics failingStore = sampleTopics :=
  ⟨duplicateFilter_fail_open.1 ⟨"T", "", "", 50, ""⟩ "boom" (8/10),
   duplicateFilter_fail_open.2 sampleTopics failingStore
     (fun _ => ⟨"connection refused", rfl⟩)⟩

/-- Claim C4, code bug: validateContent accepts a 119-character string of
60 space-separated digits although its letters-to-non-whitespace ratio is
0 (below 0.30) — the source's `alphabeticChars` count keeps whitespace
characters (its character class strips only what is neither a letter nor
whitespace), so the 59 spaces are counted as "alphabetic" and
59/60 ≥ 0.3 passes, contradicting the validator's own stated intent of
rejecting content that is mostly numbers or special characters. -/
theorem validateContent_alpha_code_bug :
    validateContent digitsOnlyContent = { isValid := true, reason := none } ∧
    (digitsOnlyContent.data.filter (fun c => c.isAlpha)).length * 10 <
      (digitsOnlyContent.data.filter (fun c => !jsIsWs c)).length * 3 := by
  constructor
  · decide
  · decide

/-! ## Rate limiter (src/lib/scraping/rateLimiter.ts) -/

/-- `RateLimitResult` from src/lib/scraping/types.ts (`reset` is an epoch
millisecond timestamp). -/
structure RateLimitResult where
  success : Bool
  limit : Nat
  remaining : Nat
  reset : Nat
deriving DecidableEq, Repr

/-- `checkRateLimit` from rateLimiter.ts.  `configured` is whether the
module-level Redis/Ratelimit singletons were initialized (env vars present
and not placeholders); `limitCall` is the awaited `ratelimit.limit(key)`
call, `.error` when it throws; `now` is `Date.now()`.  Domain extraction
feeds only the quota key and is not modelled. -/
def checkRateLimit (configured : Bool)
    (limitCall : Except String RateLimitResult) (now : Nat)
    (_url : String) : RateLimitResult :=
  if configured = false then
    { success := true, limit := 10, remaining := 10, reset := now + 60000 }
  else
    match limitCall with
    | .error _ => { success := true, limit := 10, remaining := 10, reset := now + 60000 }
    | .ok r => { success := r.success, limit := r.limit, remaining := r.remaining, reset := r.reset }

/-- Claim C8: whenever the limiter's backing store is unconfigured or its
check throws, checkRateLimit reports success for every URL (fail open). -/
theorem checkRateLimit_fail_open :
    ∀ configured limitCall now url,
      (configured = false ∨ ∃ e, limitCall = Except.error e) →
      (checkRateLimit configured limitCall now url).success = true := by
  intro configured limitCall now url h
  unfold checkRateLimit
  rcases h with h | ⟨e, he⟩
  · rw [if_pos h]
  · rw [he]
    cases configured <;> simp

/-- Claim C8, witness: both failure modes, at a concrete URL, with a quota
reply that would have denied the request. -/
theorem checkRateLimit_fail_open_witness :
    (checkRateLimit false (.ok ⟨false, 10, 0, 0⟩) 1700000000000 "https://news.example/a").success = true ∧
    (checkRateLimit true (.error "redis timeout") 1700000000000 "https://news.example/a").success = true :=
  ⟨checkRateLimit_fail_open false (.ok ⟨false, 10, 0, 0⟩) 1700000000000
      "https://news.example/a" (Or.inl rfl),
   checkRateLimit_fail_open true (.error "redis timeout") 1700000000000
      "https://news.example/a" (Or.inr ⟨"redis timeout", rfl⟩)⟩

/-! ## Content hash (generateContentHash, duplicate-detector.ts) -/

/-- Strings are determined by their character data. -/
lemma string_data_inj {s t : String} (h : s.data = t.data) : s = t := by
  cases s; cases t; exact congrArg String.mk h

/-- An excerpt of 500 copies of `a` followed by `b`. -/
def excerptTailB : String := ⟨List.replicate 500 'a' ++ ['b']⟩

/-- An excerpt of 500 copies of `a` followed by `c`. -/
def excerptTailC : String := ⟨List.replicate 500 'a' ++ ['c']⟩

set_option maxRecDepth 8192 in
/-- Claim C7, counterexample: two different excerpts that agree on their
first 500 characters produce the very same digest input — and hence the
same hash for any digest function, SHA-256 included — contradicting the
claim that changing the excerpt (title and locator fixed) changes the
hash.  Only `excerpt.substring(0, 500)` enters the hashed string. -/
theorem generateContentHash_excerpt_counterexample :
    excerptTailB ≠ excerptTailC ∧
    hashContentString "Launch" excerptTailB (some "https://a.example") =
      hashContentString "Launch" excerptTailC (some "https://a.example") ∧
    generateContentHash id "Launch" excerptTailB (some "https://a.example") =
      generateContentHash id "Launch" excerptTailC (some "https://a.example") := by
  have htake : ∀ c : Char, jsTake ⟨List.replicate 500 'a' ++ [c]⟩ 500 = ⟨List.replicate 500 'a'⟩ := by
    intro c
    apply string_data_inj
    show (List.replicate 500 'a' ++ [c]).take 500 = List.replicate 500 'a'
    conv_lhs => rw [show 500 = (List.replicate 500 'a').length from (List.length_replicate _ _).symm]
    exact List.take_left _ _
  have hk : hashContentString "Launch" excerptTailB (some "https://a.example") =
      hashContentString "Launch" excerptTailC (some "https://a.example") := by
    unfold hashContentString excerptTailB excerptTailC
    rw [htake 'b', htake 'c']
  refine ⟨?_, hk, congrArg id hk⟩
  intro h
  have hd : List.replicate 500 'a' ++ ['b'] = List.replicate 500 'a' ++ ['c'] :=
    congrArg String.data h
  have hbc := List.append_cancel_left hd
  simp at hbc

/-- Claim C7, amended: generateContentHash is deterministic, and — for any
injective digest, which the source's SHA-256 is designed to approximate —
changing the title or the (defaulted) locator string changes the hash,
while changing the excerpt changes the hash exactly when its first 500
characters change: excerpts agreeing on their first 500 characters
collide by construction. -/
theorem generateContentHash_props :
    ∀ digest : String → String, Function.Injective digest →
      (∀ t1 t2 e1 e2 u1 u2, t1 = t2 → e1 = e2 → u1 = u2 →
        generateContentHash digest t1 e1 u1 = generateContentHash digest t2 e2 u2) ∧
      (∀ t1 t2 e u, t1 ≠ t2 →
        generateContentHash digest t1 e u ≠ generateContentHash digest t2 e u) ∧
      (∀ t e1 e2 u, jsTake e1 500 = jsTake e2 500 →
        generateContentHash digest t e1 u = generateContentHash digest t e2 u) ∧
      (∀ t e1 e2 u, jsTake e1 500 ≠ jsTake e2 500 →
        generateContentHash digest t e1 u ≠ generateContentHash digest t e2 u) ∧
      (∀ t e u1 u2, u1.getD "" ≠ u2.getD "" →
        generateContentHash digest t e u1 ≠ generateContentHash digest t e u2) := by
  intro digest hinj
  refine ⟨?_, ?_, ?_, ?_, ?_⟩
  · intro t1 t2 e1 e2 u1 u2 ht he hu
    rw [ht, he, hu]
  · intro t1 t2 e u hne heq
    apply hne
    have hk : hashContentString t1 e u = hashContentString t2 e u := hinj heq
    have h' : ((t1.data ++ ['|']) ++ (jsTake e 500).data ++ ['|']) ++ (u.getD "").data =
        ((t2.data ++ ['|']) ++ (jsTake e 500).data ++ ['|']) ++ (u.getD "").data := by
      simpa [hashContentString, List.append_assoc] using congrArg String.data hk
    apply string_data_inj
    simpa using List.append_cancel_right h'
  · intro t e1 e2 u he
    unfold generateContentHash hashContentString
    rw [he]
  · intro t e1 e2 u hne heq
    apply hne
    have hk : hashContentString t e1 u = hashContentString t e2 u := hinj heq
    have h' : (t.data ++ ['|']) ++ ((jsTake e1 500).data ++ (['|'] ++ (u.getD "").data)) =
        (t.data ++ ['|']) ++ ((jsTake e2 500).data ++ (['|'] ++ (u.getD "").data)) := by
      simpa [hashContentString, List.append_assoc] using congrArg String.data hk
    exact string_data_inj (List.append_cancel_right (List.append_cancel_left h'))
  · intro t e u1 u2 hne heq
    apply hne
    have hk : hashContentString t e u1 = hashContentString t e u2 := hinj heq
    have h' : ((t.data ++ ['|']) ++ ((jsTake e 500).data ++ ['|'])) ++ (u1.getD "").data =
        ((t.data ++ ['|']) ++ ((jsTake e 500).data ++ ['|'])) ++ (u2.getD "").data := by
      simpa [hashContentString, List.append_assoc] using congrArg String.data hk
    exact string_data_inj (List.append_cancel_left h')

/-- Claim C7, witness: the amended theorem applied with the identity digest
at concrete titles, excerpts and locators. -/
theorem generateContentHash_props_witness :
    generateContentHash id "AI chips" "An excerpt." (some "https://a.example") ≠
      generateContentHash id "Creator economy" "An excerpt." (some "https://a.example") ∧
    generateContentHash id "AI chips" "An excerpt." (some "https://a.example") ≠
      generateContentHash id "AI chips" "An excerpt." (some "https://b.example") :=
  ⟨(generateContentHash_props id (fun _ _ h => h)).2.1 "AI chips" "Creator economy"
      "An excerpt." (some "https://a.example") (by decide),
   (generateContentHash_props id (fun _ _ h => h)).2.2.2.2 "AI chips" "An excerpt."
      (some "https://a.example") (some "https://b.example") (by decide)⟩

/-! ## Scraper (src/lib/scraping/scraper.ts) -/

/-- `ScrapedContent` from src/lib/scraping/types.ts.  `publishDate` keeps
the raw date string (`Date` objects are not modelled), and the `metadata`
record and `scrapedAt` stamp are omitted: no claim depends on them. -/
structure ScrapedContent where
  url : String
  title : Option String
  content : String
  publishDate : Option String
  author : Option String
  excerpt : String
  contentLength : Nat
deriving DecidableEq, Repr

/-- `ScrapeError` from src/lib/scraping/types.ts (the `timestamp` field is
omitted: no claim depends on it). -/
structure ScrapeError where
  url : String
  error : String
deriving DecidableEq, Repr

/-- `ScrapeResult = ScrapedContent | ScrapeError` as a tagged union. -/
inductive ScrapeResult where
  | content (c : ScrapedContent)
  | error (e : ScrapeError)
deriving DecidableEq, Repr

/-- Outcome of the `fetch` call inside `scrapeUrl`: aborted by the
30-second timeout, threw some other error (re-thrown and captured by the
function's outer catch), returned a non-2xx status, or returned a body. -/
inductive FetchReply where
  | abortTimeout
  | thrown (msg : String)
  | httpError (status : Nat) (statusText : String)
  | ok
deriving DecidableEq, Repr

/-- The external world one `scrapeUrl(url)` call observes, in source
order: whether `new URL(url)` succeeds (and its hostname), whether
`isRedditUrl(url)` routes to the Reddit scraper (whose result — itself
always a `ScrapeResult`, since `scrapeRedditUrl` catches everything — is
`redditResult`), the rate-limit verdict, the fetch outcome, and the text
and metadata cheerio extracts from the fetched HTML (`cleanText` is
`extractCleanText(removeNoiseFromHTML(mainContentHTML))`). -/
structure ScrapeEnv where
  validUrl : Bool
  hostname : String
  isReddit : Bool
  redditResult : ScrapeResult
  rateLimitOk : Bool
  fetchReply : FetchReply
  cleanText : String
  pageTitle : Option String
  pageDate : Option String
  pageAuthor : Option String
deriving DecidableEq, Repr

/-- `scrapeUrl` from scraper.ts: every branch — invalid URL, rate limit,
timeout, thrown fetch error, HTTP error, failed validation — returns a
`ScrapeError` value rather than raising; only validated content becomes a
`ScrapedContent` whose excerpt is the trimmed first 200 characters
(with an ellipsis when truncated). -/
def scrapeUrl (url : String) (env : ScrapeEnv) : ScrapeResult :=
  if env.validUrl = false then
    .error ⟨url, "Invalid URL format: " ++ url⟩
  else if env.isReddit then
    env.redditResult
  else if env.rateLimitOk = false then
    .error ⟨url, "Rate limit exceeded for domain: " ++ env.hostname⟩
  else
    match env.fetchReply with
    | .abortTimeout => .error ⟨url, "Request timeout after 30 seconds: " ++ url⟩
    | .thrown msg => .error ⟨url, msg⟩
    | .httpError status statusText =>
        .error ⟨url, "HTTP " ++ toString status ++ " " ++ statusText ++ ": " ++ url⟩
    | .ok =>
      let cleanText := env.cleanText
      let validation := validateContent cleanText
      if validation.isValid = false then
        .error ⟨url, "Content validation failed: " ++ validation.reason.getD ""⟩
      else
        let excerpt := jsTrim (jsTake cleanText 200)
        .content
          { url := url
            title := env.pageTitle
            content := cleanText
            publishDate := env.pageDate
            author := env.pageAuthor
            excerpt := if excerpt.length < cleanText.length then excerpt ++ "..." else excerpt
            contentLength := cleanText.length }

/-- `batchScrape` from scraper.ts: each URL's job runs `scrapeUrl` and
pushes its result into a shared array.  With the per-job environments
fixed, the multiset of outcomes is `urls.map scrapeUrl`; the concurrency
of the `p-limit` pool only permutes the push order, which the count
theorem quantifies over. -/
def batchScrape (urls : List String) (env : String → ScrapeEnv) : List ScrapeResult :=
  urls.map (fun u => scrapeUrl u (env u))

/-- Claim C1: whatever completion order the concurrent pool produces, the
batch returns exactly one outcome per input URL, each of which is either a
ScrapedContent or a ScrapeError — a job's failure (any `FetchReply`,
including thrown errors) never removes or fails sibling outcomes. -/
theorem batchScrape_outcome_count :
    ∀ (urls : List String) (env : String → ScrapeEnv) (results : List ScrapeResult),
      results.Perm (batchScrape urls env) →
      results.length = urls.length ∧
      ∀ r ∈ results, (∃ c, r = ScrapeResult.content c) ∨ (∃ e, r = ScrapeResult.error e) := by
  intro urls env results hperm
  constructor
  · rw [hperm.length_eq]
    exact List.length_map urls _
  · intro r _
    cases r with
    | content c => exact Or.inl ⟨c, rfl⟩
    | error e => exact Or.inr ⟨e, rfl⟩

/-- A batch environment where the first URL's fetch throws, the second
times out and the third is malformed. -/
def mixedFailureEnv : String → ScrapeEnv := fun u =>
  if u = "https://a.example/1" then
    ⟨true, "a.example", false, .error ⟨"", ""⟩, true, .thrown "ECONNRESET", "", none, none, none⟩
  else if u = "https://a.example/2" then
    ⟨true, "a.example", false, .error ⟨"", ""⟩, true, .abortTimeout, "", none, none, none⟩
  else
    ⟨false, "", false, .error ⟨"", ""⟩, true, .ok, "", none, none, none⟩

/-- Claim C1, witness: three URLs whose jobs all fail in different ways,
observed in a completion order differing from submission order, still
yield exactly three outcomes. -/
theorem batchScrape_outcome_count_witness :
    ([ScrapeResult.error ⟨"https://a.example/2", "Request timeout after 30 seconds: https://a.example/2"⟩,
      ScrapeResult.error ⟨"not a url", "Invalid URL format: not a url"⟩,
      ScrapeResult.error ⟨"https://a.example/1", "ECONNRESET"⟩] : List ScrapeResult).length =
      (["https://a.example/1", "https://a.example/2", "not a url"] : List String).length ∧
    ∀ r ∈ ([ScrapeResult.error ⟨"https://a.example/2", "Request timeout after 30 seconds: https://a.example/2"⟩,
      ScrapeResult.error ⟨"not a url", "Invalid URL format: not a url"⟩,
      ScrapeResult.error ⟨"https://a.example/1", "ECONNRESET"⟩] : List ScrapeResult),
      (∃ c, r = ScrapeResult.content c) ∨ (∃ e, r = ScrapeResult.error e) :=
  batchScrape_outcome_count ["https://a.example/1", "https://a.example/2", "not a url"]
    mixedFailureEnv _ (by decide)

/-- Everything `validateContent` lets through satisfies the numeric body
invariants that the validator checks: length within [100, 50000] and at
least 10 whitespace-delimited words. -/
lemma validateContent_passes (s : String)
    (h : (validateContent s).isValid = true) :
    100 ≤ s.length ∧ s.length ≤ 50000 ∧
      10 ≤ ((jsSplitWs s).filter (fun w => w.length > 0)).length := by
  unfold validateContent at h
  dsimp only at h
  split_ifs at h with h1 h2 h3 h4
  all_goals omega

/-- Claim C2, amended: the body invariant is enforced only on the generic
HTML path — every ScrapedContent that `scrapeUrl` produces there has
passed `validateContent`, so its body has 100 to 50,000 characters and at
least 10 whitespace-delimited tokens (the 30% "alphabetic" guard holds
only in the source's whitespace-counting form, see the C4 theorem).  The
feed and Reddit extractors perform no such validation (see the feed
counterexample). -/
theorem scrapeUrl_body_invariant :
    ∀ (url : String) (env : ScrapeEnv) (c : ScrapedContent),
      env.isReddit = false →
      scrapeUrl url env = ScrapeResult.content c →
      100 ≤ c.contentLength ∧ c.contentLength ≤ 50000 ∧
        10 ≤ ((jsSplitWs c.content).filter (fun w => w.length > 0)).length ∧
        c.content = env.cleanText ∧ c.contentLength = c.content.length := by
  intro url env c hreddit h
  obtain ⟨vu, hn, ir, rr, rl, fr, ct, pt, pd, pa⟩ := env
  cases hreddit
  cases vu
  · simp [scrapeUrl] at h
  · cases rl
    · simp [scrapeUrl] at h
    · cases fr <;> by_cases hv : (validateContent ct).isValid = false <;>
        simp [scrapeUrl, hv] at h
      all_goals {
        have hvalid : (validateContent ct).isValid = true := by
          cases hb : (validateContent ct).isValid
          · exact absurd hb hv
          · rfl
        obtain ⟨ha, hb', hc⟩ := validateContent_passes ct hvalid
        rw [← h]
        exact ⟨ha, hb', hc, rfl, rfl⟩ }

/-! ## Reddit trending score (calculateTrendingScore, src/lib/scraping/index.ts) -/

/-- `calculateTrendingScore` from src/lib/scraping/index.ts, over the four
numeric inputs (after the source's `|| 0` / `|| 0.5` defaulting of missing
fields and its conversion of `created_utc` to `ageHours`).  JS float
arithmetic is modelled over `ℝ`. -/
noncomputable def calculateTrendingScore
    (score upvoteRatio commentCount ageHours : ℝ) : ℝ :=
  let normalizedScore := Real.logb 10 (max score 1) * 10
  let normalizedComments := Real.logb 10 (max commentCount 1) * 10
  let recencyBoost := max 0 (1 - ageHours / 48)
  normalizedScore * 0.4 + upvoteRatio * 100 * 0.2 +
    normalizedComments * 0.3 + recencyBoost * 10 * 0.1

/-- Claim C5, counterexample: the trending score is NOT strictly increasing
in `score` — raising the score from 0 to 1 leaves it unchanged, because
both fall under the `max(score, 1)` clamp — and NOT strictly decreasing in
`ageHours` for every positive age: at 49 vs 50 hours the recency term is
already 0 and the score is unchanged. -/
theorem calculateTrendingScore_counterexample :
    calculateTrendingScore 0 (1/2) 5 1 = calculateTrendingScore 1 (1/2) 5 1 ∧
    calculateTrendingScore 3 (1/2) 5 49 = calculateTrendingScore 3 (1/2) 5 50 := by
  constructor
  · unfold calculateTrendingScore
    norm_num [max_def]
  · unfold calculateTrendingScore
    dsimp only
    rw [show max (0:ℝ) (1 - 49/48) = 0 from max_eq_left (by norm_num),
        show max (0:ℝ) (1 - 50/48) = 0 from max_eq_left (by norm_num)]

/-- Claim C5, amended: with all other inputs fixed, the trending score is
strictly increasing in `score` on scores at least 1, strictly increasing
in `upvote_ratio` everywhere, strictly increasing in `num_comments` on
counts at least 1, and strictly decreasing in `ageHours` on ages in
[0, 48); below 1 the two log terms are clamped and beyond 48 hours the
recency term is zero, where the score is constant in that input. -/
theorem calculateTrendingScore_monotone :
    (∀ r c a s1 s2 : ℝ, 1 ≤ s1 → s1 < s2 →
      calculateTrendingScore s1 r c a < calculateTrendingScore s2 r c a) ∧
    (∀ s c a r1 r2 : ℝ, r1 < r2 →
      calculateTrendingScore s r1 c a < calculateTrendingScore s r2 c a) ∧
    (∀ s r a c1 c2 : ℝ, 1 ≤ c1 → c1 < c2 →
      calculateTrendingScore s r c1 a < calculateTrendingScore s r c2 a) ∧
    (∀ s r c a1 a2 : ℝ, 0 ≤ a1 → a1 < a2 → a2 < 48 →
      calculateTrendingScore s r c a2 < calculateTrendingScore s r c a1) := by
  refine ⟨?_, ?_, ?_, ?_⟩
  · intro r c a s1 s2 h1 h
    unfold calculateTrendingScore
    dsimp only
    have hl : Real.logb 10 (max s1 1) < Real.logb 10 (max s2 1) := by
      rw [max_eq_left h1, max_eq_left (h1.trans h.le)]
      exact Real.logb_lt_logb (by norm_num) (by linarith) h
    gcongr
  · intro s c a r1 r2 h
    unfold calculateTrendingScore
    dsimp only
    gcongr
  · intro s r a c1 c2 h1 h
    unfold calculateTrendingScore
    dsimp only
    have hl : Real.logb 10 (max c1 1) < Real.logb 10 (max c2 1) := by
      rw [max_eq_left h1, max_eq_left (h1.trans h.le)]
      exact Real.logb_lt_logb (by norm_num) (by linarith) h
    gcongr
  · intro s r c a1 a2 h0 h h48
    unfold calculateTrendingScore
    dsimp only
    have hb : max 0 (1 - a2 / 48) < max 0 (1 - a1 / 48) := by
      rw [max_eq_right (by linarith), max_eq_right (by linarith)]
      linarith
    gcongr

/-- Claim C5, witness: the amended monotonicity theorem applied at
concrete posts. -/
theorem calculateTrendingScore_monotone_witness :
    calculateTrendingScore 10 (7/10) 4 6 < calculateTrendingScore 250 (7/10) 4 6 ∧
    calculateTrendingScore 10 (7/10) 4 6 < calculateTrendingScore 10 (9/10) 4 6 ∧
    calculateTrendingScore 10 (7/10) 4 6 < calculateTrendingScore 10 (7/10) 40 6 ∧
    calculateTrendingScore 10 (7/10) 4 24 < calculateTrendingScore 10 (7/10) 4 6 :=
  ⟨calculateTrendingScore_monotone.1 (7/10) 4 6 10 250 (by norm_num) (by norm_num),
   calculateTrendingScore_monotone.2.1 10 4 6 (7/10) (9/10) (by norm_num),
   calculateTrendingScore_monotone.2.2.1 10 (7/10) 6 4 40 (by norm_num) (by norm_num),
   calculateTrendingScore_monotone.2.2.2 10 (7/10) 4 6 24 (by norm_num) (by norm_num) (by norm_num)⟩

/-! ## Topic extraction parsing (parseTopicsFromResponse) -/

/-- A parsed JSON value, as `JSON.parse` returns it (`undefined` cannot
occur in parsed JSON; duplicate object keys are already collapsed). -/
inductive JsValue where
  | null
  | bool (b : Bool)
  | num (q : ℚ)
  | str (s : String)
  | arr (elems : List JsValue)
  | obj (fields : List (String × JsValue))

/-- JS property access `item.key`: `none` models `undefined` (missing key
or non-object receiver; `null` receivers throw and are handled by the
caller's loop model). -/
def JsValue.getField (v : JsValue) (key : String) : Option JsValue :=
  match v with
  | .obj fields => (fields.find? (fun p => p.1 = key)).map (fun p => p.2)
  | _ => none

/-- JS `Math.round`: half-up, halves toward positive infinity. -/
def jsRound (q : ℚ) : ℚ := ((⌊q + 1/2⌋ : ℤ) : ℚ)

/-- The per-item validation of `parseTopicsFromResponse` (the body of its
`for` loop): all five fields must have the right JS `typeof`, and
`trendingScore` must lie in [40, 100]; accepted items are trimmed and
their score rounded. -/
def validateTopicItem (item : JsValue) : Option ExtractedTopic :=
  match item.getField "title", item.getField "description", item.getField "category",
        item.getField "trendingScore", item.getField "relevance" with
  | some (.str title), some (.str description), some (.str category),
    some (.num trendingScore), some (.str relevance) =>
    if 40 ≤ trendingScore ∧ trendingScore ≤ 100 then
      some { title := jsTrim title, description := jsTrim description,
             category := jsTrim category, trendingScore := jsRound trendingScore,
             relevance := jsTrim relevance }
    else none
  | _, _, _, _, _ => none

/-- The validation loop of `parseTopicsFromResponse`: accumulates accepted
items in order; a `null` array element makes the property access throw
(`.error`), which the function's outer catch turns into the text
fallback. -/
def topicsLoop : List JsValue → Except Unit (List ExtractedTopic)
  | [] => .ok []
  | item :: rest =>
    match item with
    | .null => .error ()
    | _ =>
      match validateTopicItem item with
      | some t => (topicsLoop rest).map (fun ts => t :: ts)
      | none => topicsLoop rest

/-- `extractTopicsFromText` from the topic extraction module: the fallback
computes two regex match lists but never appends to `topics`, so it
returns the empty array for every input. -/
def extractTopicsFromText (_text : String) : List ExtractedTopic := []

/-- `parseTopicsFromResponse`: `parseResult` is the outcome of
`JSON.parse` on the bracket-extracted response text (`.error` when it
throws); a non-array parse yields no topics; a throwing loop falls back to
`extractTopicsFromText`. -/
def parseTopicsFromResponse (parseResult : Except String JsValue)
    (response : String) : List ExtractedTopic :=
  match parseResult with
  | .error _ => extractTopicsFromText response
  | .ok parsed =>
    match parsed with
    | .arr items =>
      match topicsLoop items with
      | .ok validTopics => validTopics
      | .error _ => extractTopicsFromText response
    | _ => []

/-- Rounding keeps a score inside [40, 100]. -/
lemma jsRound_bounds (q : ℚ) (h1 : 40 ≤ q) (h2 : q ≤ 100) :
    40 ≤ jsRound q ∧ jsRound q ≤ 100 := by
  unfold jsRound
  constructor
  · have h : (40:ℤ) ≤ ⌊q + 1/2⌋ := Int.le_floor.mpr (by push_cast; linarith)
    exact_mod_cast h
  · have h : ⌊q + 1/2⌋ ≤ (100:ℤ) := by
      have hf := Int.floor_le (q + 1/2)
      by_contra hc
      push_neg at hc
      have h101 : ((101:ℤ):ℚ) ≤ ((⌊q + 1/2⌋ : ℤ) : ℚ) := by exact_mod_cast hc
      push_cast at h101
      linarith
    exact_mod_cast h

/-- Accepted items carry a score inside [40, 100]. -/
lemma validateTopicItem_score (item : JsValue) (t : ExtractedTopic)
    (h : validateTopicItem item = some t) :
    40 ≤ t.trendingScore ∧ t.trendingScore ≤ 100 := by
  unfold validateTopicItem at h
  split at h
  · split_ifs at h with hq
    · cases h
      exact jsRound_bounds _ hq.1 hq.2
  · exact absurd h (by simp)

/-- Acceptance requires all five fields well-typed and the raw score in
range. -/
lemma validateTopicItem_typed (item : JsValue) (t : ExtractedTopic)
    (h : validateTopicItem item = some t) :
    ∃ q, item.getField "trendingScore" = some (.num q) ∧ 40 ≤ q ∧ q ≤ 100 := by
  unfold validateTopicItem at h
  split at h
  · next t1 d c ts r h1 h2 h3 h4 h5 =>
    split_ifs at h with hq
    exact ⟨ts, h4, hq.1, hq.2⟩
  · exact absurd h (by simp)

/-- An item whose numeric score lies outside [40, 100] is excluded. -/
lemma validateTopicItem_rejects (item : JsValue) (q : ℚ)
    (hq : item.getField "trendingScore" = some (.num q)) (hout : q < 40 ∨ 100 < q) :
    validateTopicItem item = none := by
  unfold validateTopicItem
  split
  · next t1 d c ts r h1 h2 h3 h4 h5 =>
    rw [hq] at h4
    injection h4 with h4
    injection h4 with h4
    split_ifs with hcond
    · rcases hout with hout | hout <;> rw [← h4] at hcond <;> linarith [hcond.1, hcond.2]
    · rfl
  · rfl

/-- Every topic in an accepted result list came from an accepted item. -/
lemma topicsLoop_mem (items : List JsValue) (ts : List ExtractedTopic)
    (h : topicsLoop items = .ok ts) :
    ∀ t ∈ ts, ∃ item, validateTopicItem item = some t := by
  induction items generalizing ts with
  | nil =>
    intro t ht
    unfold topicsLoop at h
    cases h
    exact absurd ht (by simp)
  | cons item rest ih =>
    intro t ht
    unfold topicsLoop at h
    revert h
    split
    · intro h; exact absurd h (by simp)
    · cases hv : validateTopicItem item with
      | some t0 =>
        cases hr : topicsLoop rest with
        | ok ts0 =>
          intro h
          simp [Except.map, hr] at h
          rcases h with rfl
          rw [List.mem_cons] at ht
          rcases ht with rfl | ht
          · exact ⟨item, hv⟩
          · exact ih ts0 hr t ht
        | error e =>
          intro h
          simp [Except.map, hr] at h
      | none =>
        intro h
        exact ih ts h t ht

/-- Claim C9: every ExtractedTopic returned from parsing the Generation
Service response has a trendingScore in [40, 100]; an accepted item's
fields are well-typed with raw score in range, and any item whose numeric
trendingScore lies outside [40, 100] is excluded. -/
theorem parseTopicsFromResponse_score_bounds :
    (∀ parseResult response t, t ∈ parseTopicsFromResponse parseResult response →
      40 ≤ t.trendingScore ∧ t.trendingScore ≤ 100) ∧
    (∀ item t, validateTopicItem item = some t →
      ∃ q, item.getField "trendingScore" = some (.num q) ∧ 40 ≤ q ∧ q ≤ 100) ∧
    (∀ item q, item.getField "trendingScore" = some (.num q) → q < 40 ∨ 100 < q →
      validateTopicItem item = none) := by
  refine ⟨?_, validateTopicItem_typed, validateTopicItem_rejects⟩
  intro parseResult response t ht
  cases parseResult with
  | error e => exact absurd ht (by simp [parseTopicsFromResponse, extractTopicsFromText])
  | ok parsed =>
    cases parsed with
    | arr items =>
      unfold parseTopicsFromResponse at ht
      dsimp only at ht
      cases hl : topicsLoop items with
      | ok ts =>
        rw [hl] at ht
        dsimp only at ht
        obtain ⟨item, hvi⟩ := topicsLoop_mem items ts hl t ht
        exact validateTopicItem_score item t hvi
      | error e =>
        rw [hl] at ht
        exact absurd ht (by simp [extractTopicsFromText])
    | null => exact absurd ht (by simp [parseTopicsFromResponse])
    | bool b => exact absurd ht (by simp [parseTopicsFromResponse])
    | num q => exact absurd ht (by simp [parseTopicsFromResponse])
    | str s => exact absurd ht (by simp [parseTopicsFromResponse])
    | obj fields => exact absurd ht (by simp [parseTopicsFromResponse])

/-- A well-formed topic item as the Generation Service would return it. -/
def goodTopicItem : JsValue :=
  .obj [("title", .str "Edge AI"), ("description", .str "On-device models."),
        ("category", .str "Technology"), ("trendingScore", .num 85),
        ("relevance", .str "Matches audience")]

/-- Parsing a one-item response yields exactly that topic, score 85. -/
lemma goodTopicEval :
    parseTopicsFromResponse (.ok (.arr [goodTopicItem])) "" =
      [⟨"Edge AI", "On-device models.", "Technology", 85, "Matches audience"⟩] := by
  simp [goodTopicItem, parseTopicsFromResponse, topicsLoop, validateTopicItem,
    JsValue.getField, List.find?]
  rw [if_pos (show (40:ℚ) ≤ 85 ∧ (85:ℚ) ≤ 100 from ⟨by norm_num, by norm_num⟩)]
  dsimp only [Except.map]
  rw [show jsTrim "Edge AI" = "Edge AI" from rfl,
      show jsTrim "On-device models." = "On-device models." from rfl,
      show jsTrim "Technology" = "Technology" from rfl,
      show jsTrim "Matches audience" = "Matches audience" from rfl,
      show jsRound 85 = 85 by norm_num [jsRound]]

/-- Claim C9, witness: the bounds theorem applied to the topic parsed from
a concrete one-item response. -/
theorem parseTopicsFromResponse_score_bounds_witness :
    40 ≤ (⟨"Edge AI", "On-device models.", "Technology", 85,
      "Matches audience"⟩ : ExtractedTopic).trendingScore ∧
    (⟨"Edge AI", "On-device models.", "Technology", 85,
      "Matches audience"⟩ : ExtractedTopic).trendingScore ≤ 100 :=
  parseTopicsFromResponse_score_bounds.1 (.ok (.arr [goodTopicItem])) ""
    ⟨"Edge AI", "On-device models.", "Technology", 85, "Matches audience"⟩
    (by rw [goodTopicEval]; exact List.mem_singleton_self _)

/-- A 102-character, 19-word HTML-extracted text that passes validation. -/
def sampleCleanText : String :=
  "The quick brown fox jumps over the lazy dog while the curious cat watches from the garden wall nearby."

/-- A scrape environment whose fetch succeeds with `sampleCleanText`. -/
def sampleEnv : ScrapeEnv :=
  ⟨true, "example.com", false, .error ⟨"", ""⟩, true, .ok, sampleCleanText,
    some "Sample", none, none⟩

/-- The content record `scrapeUrl` produces in `sampleEnv`. -/
def sampleScraped : ScrapedContent :=
  ⟨"https://example.com/post", some "Sample", sampleCleanText, none, none,
    sampleCleanText, 102⟩

/-- Claim C2, witness: the amended body-invariant theorem applied to a
concrete successful HTML scrape. -/
theorem scrapeUrl_body_invariant_witness :
    100 ≤ sampleScraped.contentLength ∧ sampleScraped.contentLength ≤ 50000 ∧
      10 ≤ ((jsSplitWs sampleScraped.content).filter (fun w => w.length > 0)).length ∧
      sampleScraped.content = sampleEnv.cleanText ∧
      sampleScraped.contentLength = sampleScraped.content.length :=
  scrapeUrl_body_invariant "https://example.com/post" sampleEnv sampleScraped
    rfl (by decide)

/-! ## Feed extractor (parseRss2Feed and its regex helpers)

The source parses RSS with JS regexes.  Each regex used is of one of
three simple shapes — a lazy capture between two fixed tags
(`openTag ... closeTag`, flags `i` or `gi`), a global fixed-string
replacement, or the tag-stripper `anything between < and >` — and is
embedded below by explicit scanning functions with the same semantics.
Global loops carry a fuel argument that the callers instantiate with the
subject length, which bounds the match count. -/

/-- Character comparison, optionally case-insensitive (regex flag `i`). -/
def charEqCI (ci : Bool) (a b : Char) : Bool :=
  if ci then a.toLower = b.toLower else a = b

/-- Does `s` start with the fixed pattern? -/
def startsWithPat (ci : Bool) : List Char → List Char → Bool
  | [], _ => true
  | _ :: _, [] => false
  | p :: ps, c :: cs => charEqCI ci p c && startsWithPat ci ps cs

/-- Index of the first occurrence of a fixed pattern. -/
def findPat (ci : Bool) (pat : List Char) : List Char → Option Nat
  | [] => if startsWithPat ci pat [] then some 0 else none
  | c :: cs =>
    if startsWithPat ci pat (c :: cs) then some 0
    else (findPat ci pat cs).map (fun i => i + 1)

/-- Split at the first occurrence of `pat`: (text before, text after). -/
def splitAtPat (ci : Bool) (pat s : List Char) : Option (List Char × List Char) :=
  (findPat ci pat s).map (fun i => (s.take i, s.drop (i + pat.length)))

/-- One match of `openTag(lazy any)closeTag`: text before the match, the
captured group, and the text after the match. -/
def lazyCapture (ci : Bool) (openPat closePat s : List Char) :
    Option (List Char × List Char × List Char) :=
  match splitAtPat ci openPat s with
  | none => none
  | some (before, afterOpen) =>
    match splitAtPat ci closePat afterOpen with
    | none => none
    | some (inner, rest) => some (before, inner, rest)

/-- All captures of a global `openTag(lazy any)closeTag` regex, continuing
after each match as `exec` does. -/
def allCaptures (fuel : Nat) (ci : Bool) (openPat closePat s : List Char) :
    List (List Char) :=
  match fuel with
  | 0 => []
  | fuel + 1 =>
    match lazyCapture ci openPat closePat s with
    | none => []
    | some (_, inner, rest) => inner :: allCaptures fuel ci openPat closePat rest

/-- Global fixed-string replacement (`String.replace` with flag `g`);
replacements are not rescanned. -/
def replaceAllPat (fuel : Nat) (ci : Bool) (pat repl s : List Char) : List Char :=
  match fuel with
  | 0 => s
  | fuel + 1 =>
    match splitAtPat ci pat s with
    | none => s
    | some (before, rest) => before ++ repl ++ replaceAllPat fuel ci pat repl rest

/-- The CDATA unwrapping replacement of `cleanXmlText`: each
`CDATA start (lazy capture) CDATA end` block is replaced by its capture. -/
def stripCData (fuel : Nat) (s : List Char) : List Char :=
  match fuel with
  | 0 => s
  | fuel + 1 =>
    match lazyCapture true "<![CDATA[".data "]]>".data s with
    | none => s
    | some (before, inner, rest) => before ++ inner ++ stripCData fuel rest

/-- The XML entity decodings of `cleanXmlText`, in source order. -/
def xmlEntityPairs : List (String × String) :=
  [("&lt;", "<"), ("&gt;", ">"), ("&amp;", "&"), ("&quot;", "\""),
   ("&apos;", "'"), ("&#39;", "'"), ("&nbsp;", " ")]

/-- Chained global entity replacements. -/
def decodeEntitiesWith (pairs : List (String × String)) (s : List Char) : List Char :=
  pairs.foldl (fun acc p => replaceAllPat (acc.length + 1) false p.1.data p.2.data acc) s

/-- `cleanXmlText` from the feed module: unwrap CDATA, decode the five
standard entities plus `&nbsp;` / `&#39;`, trim. -/
def cleanXmlText (text : String) : String :=
  if text = "" then ""
  else
    let t1 := stripCData (text.data.length + 1) text.data
    let t2 := decodeEntitiesWith xmlEntityPairs t1
    jsTrim ⟨t2⟩

/-- The tag-removal replacement of `stripHtmlTags`: each maximal
`<`, one-or-more non-`>` characters, `>` span becomes one space; a bare
`<>` is not a match and is kept. -/
def stripTags (fuel : Nat) (s : List Char) : List Char :=
  match fuel with
  | 0 => s
  | fuel + 1 =>
    match findPat false ['<'] s with
    | none => s
    | some i =>
      let before := s.take i
      let rest := s.drop (i + 1)
      match findPat false ['>'] rest with
      | none => s
      | some j =>
        if j = 0 then before ++ ['<'] ++ stripTags fuel rest
        else before ++ [' '] ++ stripTags fuel (rest.drop (j + 1))

/-- Global replacement of whitespace runs by a single space. -/
def collapseWsToSpace (s : List Char) : List Char :=
  List.intercalate [' '] (jsSplitRuns s)

/-- Entity decodings of `stripHtmlTags` (the XML set plus `&#160;`). -/
def htmlEntityPairs : List (String × String) :=
  xmlEntityPairs ++ [("&#160;", " ")]

/-- `stripHtmlTags` from the feed module: drop tags, decode entities,
collapse whitespace, trim. -/
def stripHtmlTags (html : String) : String :=
  if html = "" then ""
  else
    let t1 := stripTags (html.data.length + 1) html.data
    let t2 := decodeEntitiesWith htmlEntityPairs t1
    jsTrim ⟨collapseWsToSpace t2⟩

/-- `parseRssDate` wraps `new Date(dateStr)`; dates are kept as their raw
string in this model. -/
def parseRssDate (dateStr : String) : Option String := some dateStr

/-- JS truthiness of a nullable string (`null`/`undefined`/`""` falsy). -/
def jsTruthyStr : Option String → Bool
  | none => false
  | some s => s != ""

/-- `parseRss2Feed` from the feed module: split the XML into `item` blocks,
pull each field with its lazy-capture regex, and accept every item whose
title and link are truthy — the content may be any length, even empty.
The channel-title metadata is omitted (the model's `ScrapedContent` keeps
no metadata record). -/
def parseRss2Feed (xml _feedUrl : String) : List ScrapedContent :=
  let itemBlocks := allCaptures (xml.data.length + 1) true "<item>".data "</item>".data xml.data
  itemBlocks.filterMap (fun itemXml =>
    let title := (lazyCapture true "<title>".data "</title>".data itemXml).map
      (fun m => cleanXmlText ⟨m.2.1⟩)
    let link := (lazyCapture true "<link>".data "</link>".data itemXml).map
      (fun m => cleanXmlText ⟨m.2.1⟩)
    let descriptionMatch := lazyCapture true "<description>".data "</description>".data itemXml
    let contentMatch := lazyCapture true "<content:encoded>".data "</content:encoded>".data itemXml
    let content :=
      match contentMatch with
      | some m => cleanXmlText ⟨m.2.1⟩
      | none =>
        match descriptionMatch with
        | some m => cleanXmlText ⟨m.2.1⟩
        | none => ""
    let publishDate :=
      match lazyCapture true "<pubDate>".data "</pubDate>".data itemXml with
      | some m => parseRssDate (cleanXmlText ⟨m.2.1⟩)
      | none => none
    let authorMatch :=
      match lazyCapture true "<author>".data "</author>".data itemXml with
      | some m => some m
      | none => lazyCapture true "<dc:creator>".data "</dc:creator>".data itemXml
    let author := authorMatch.map (fun m => cleanXmlText ⟨m.2.1⟩)
    if jsTruthyStr title && jsTruthyStr link then
      let cleanContent := stripHtmlTags content
      let excerpt := jsTrim (jsTake cleanContent 200)
      some
        { url := link.getD ""
          title := title
          content := cleanContent
          publishDate := publishDate
          author := author
          excerpt := if excerpt.length < cleanContent.length then excerpt ++ "..." else excerpt
          contentLength := cleanContent.length }
    else none)

/-- An RSS 2.0 document whose single item has a valid title and link but a
5-character description. -/
def shortFeedXml : String :=
  "<rss version=\"2.0\"><channel><title>Daily Tech</title><item><title>Tiny item</title><link>https://news.example/a</link><description>short</description></item></channel></rss>"

set_option maxRecDepth 16384 in
/-- Claim C2, counterexample: the feed extractor emits a ScrapedContent
whose body is the 5-character string "short" — far below the claimed
100-character minimum — because `parseRss2Feed` validates only that title
and link are present, never the body. -/
theorem parseRss2Feed_short_body_counterexample :
    parseRss2Feed shortFeedXml "https://news.example/feed" =
      [⟨"https://news.example/a", some "Tiny item", "short", none, none, "short", 5⟩] ∧
    (5:Nat) < 100 := by
  constructor
  · decide
  · decide

end Postdraft
